import Mathlib

/-!
Shallow embedding of the connector-namespace service of kas-fleet-manager
(internal/connector/internal/services/connector_namespaces.go), together with
the configuration it reads (ConnectorsConfig, ConnectorsQuotaConfig).

The relational store is modelled as explicit lists of rows.  gorm soft
deletion (a non-null deleted_at column) is modelled by a Boolean `deleted`
flag on each row; the default gorm scope that hides soft-deleted rows when a
query goes through a model is reproduced by an explicit `!deleted` test at
each such query.  Time is a Nat parameter, and the random source used for
eval-cluster placement is an arbitrary Nat oracle parameter.
-/

set_option autoImplicit false

namespace KasFleet

/-- Phase constant dbapi.ConnectorNamespacePhaseDeleting (the dbapi package is
outside the sources; the spec names the phase "deleting"). -/
def ConnectorNamespacePhaseDeleting : String := "deleting"

/-- Desired-state constant dbapi.ConnectorDeleted. -/
def ConnectorDeleted : String := "deleted"

/-- Desired-state constant dbapi.ConnectorUnassigned. -/
def ConnectorUnassigned : String := "unassigned"

/-- Phase constant dbapi.ConnectorStatusPhaseDeleting. -/
def ConnectorStatusPhaseDeleting : String := "deleting"

/-- Modelled from the spec: config.AnnotationProfileKey, the reserved
annotation key used to tag a namespace's quota profile (the config constant is
outside the sources; only its role matters, not its literal value). -/
def AnnotationProfileKey : String := "connector_mgmt.bf2.org/profile"

/-- One row of the connector_namespace_annotations table
(dbapi.ConnectorNamespaceAnnotation): key/value pair scoped to a namespace. -/
structure NamespaceAnnotationRow where
  namespaceId : String
  key : String
  value : String
deriving DecidableEq, Repr

/-- One row of the connector_namespaces table (dbapi.ConnectorNamespace).
`annotations` is the in-memory eager-loaded collection (gorm Preload), while
the durable rows live in `DB.annotations`; `deleted` models deleted_at. -/
structure ConnectorNamespace where
  id : String
  clusterId : String
  tenantUserId : Option String
  tenantOrganisationId : Option String
  expiration : Option Nat
  statusPhase : String
  version : Nat
  annotations : List NamespaceAnnotationRow
  deleted : Bool
deriving DecidableEq, Repr

/-- One row of the connector_clusters table (dbapi.ConnectorCluster). -/
structure ConnectorCluster where
  id : String
  organisationId : String
  statusPhase : String
  deleted : Bool
deriving DecidableEq, Repr

/-- One row of the connectors table (dbapi.Connector). -/
structure Connector where
  id : String
  namespaceId : String
  desiredState : String
  deleted : Bool
deriving DecidableEq, Repr

/-- One row of the connector_statuses table (dbapi.ConnectorStatus); its id is
the owning connector's id. -/
structure ConnectorStatus where
  id : String
  namespaceId : String
  phase : String
  deleted : Bool
deriving DecidableEq, Repr

/-- One row of the connector_deployment_statuses table
(dbapi.ConnectorDeploymentStatus); per the spec's data model the record exists
1:1 with a connector, so its id is the connector's id, which is how
DeleteNamespaceAndConnectorDeployments addresses it. -/
structure ConnectorDeploymentStatus where
  id : String
  phase : String
  deleted : Bool
deriving DecidableEq, Repr

/-- The relational store: one list of rows per table. -/
structure DB where
  namespaces : List ConnectorNamespace
  clusters : List ConnectorCluster
  connectors : List Connector
  connectorStatuses : List ConnectorStatus
  deploymentStatuses : List ConnectorDeploymentStatus
  annotations : List NamespaceAnnotationRow
deriving DecidableEq, Repr

/-- config.ConnectorsConfig, restricted to the fields this service reads.
The Boolean field is the global cascade-delete-disable switch: the flag
connector-disable-cascade-delete registered by ConnectorsConfig.AddFlags
("sets Connectors to 'unassigned' state instead"); connector_namespaces.go
reads it as ConnectorEnableUnassignedConnectors. -/
structure ConnectorsConfig where
  ConnectorEvalDuration : Nat
  ConnectorEvalOrganizations : List String
  ConnectorEnableUnassignedConnectors : Bool
deriving DecidableEq, Repr

/-- config.NamespaceQuota: the policy record returned by the quota profile
resolver; Connectors is the connector cap (an int in Go). -/
structure NamespaceQuota where
  Connectors : Int
deriving DecidableEq, Repr

/-- config.ConnectorsQuotaConfig, restricted to the fields this service reads:
the eval profile name and the profile-name-to-quota table behind
GetNamespaceQuota. -/
structure ConnectorsQuotaConfig where
  EvalNamespaceQuotaProfile : String
  NamespaceQuotas : List (String × NamespaceQuota)
deriving DecidableEq, Repr

/-- Modelled from the spec: ConnectorsQuotaConfig.GetNamespaceQuota is outside
the sources; per the spec's collaborator contract the resolver "accepts a
profile name, returns a maxConnectors policy record (zero/absent = unlimited)
plus a found/not-found signal". -/
def GetNamespaceQuota (qc : ConnectorsQuotaConfig) (profileName : String) :
    NamespaceQuota × Bool :=
  match qc.NamespaceQuotas.find? (fun pq => pq.fst == profileName) with
  | some pq => (pq.snd, true)
  | none => ({ Connectors := 0 }, false)

/-- The service's error kinds (pkg/errors is outside the sources; the kinds
are those of the spec's error-handling design). -/
inductive ServiceError where
  | notFound
  | general
  | conflict
  | unauthorized
  | insufficientQuota
  | failedToCheckQuota
  | createError
  | updateError
  | deleteError
  | searchParseError
deriving DecidableEq, Repr

/-- Decidable equality for the Except results of the fallible operations. -/
instance {ε α : Type} [DecidableEq ε] [DecidableEq α] :
    DecidableEq (Except ε α) := fun a b =>
  match a, b with
  | .error e, .error f =>
      if h : e = f then isTrue (by rw [h]) else isFalse (by simp [h])
  | .error _, .ok _ => isFalse (by simp)
  | .ok _, .error _ => isFalse (by simp)
  | .ok x, .ok y =>
      if h : x = y then isTrue (by rw [h]) else isFalse (by simp [h])

/-! ## DeleteNamespaceAndConnectorDeployments -/

/-- The namespaces matched by the caller's predicate: the first query of
DeleteNamespaceAndConnectorDeployments, a gorm model query (so soft-deleted
rows are excluded) with the caller's Where clause. -/
def matchedNamespaces (db : DB) (p : ConnectorNamespace → Bool) :
    List ConnectorNamespace :=
  db.namespaces.filter (fun ns => !ns.deleted && p ns)

/-- The ids of the matched namespaces (namespaceIds in the Go code). -/
def matchedNamespaceIds (db : DB) (p : ConnectorNamespace → Bool) :
    List String :=
  (matchedNamespaces db p).map (fun ns => ns.id)

/-- The distinct cluster ids of the matched namespaces (the clusterIds set in
the Go code, built as a map used as a set). -/
def touchedClusterIds (db : DB) (p : ConnectorNamespace → Bool) :
    List String :=
  ((matchedNamespaces db p).map (fun ns => ns.clusterId)).dedup

/-- Ids of connectors in the matched namespaces whose desired state is not
already "deleted" (a gorm model query, so soft-deleted rows are excluded). -/
def cascadeConnectorIds (db : DB) (p : ConnectorNamespace → Bool) :
    List String :=
  (db.connectors.filter (fun c =>
      !c.deleted && (matchedNamespaceIds db p).contains c.namespaceId &&
        c.desiredState != ConnectorDeleted)).map (fun c => c.id)

/-- The Update that sets status_phase to "deleting" for the matched namespace
ids (gorm model update: soft-deleted rows are excluded by the default scope). -/
def nsPhaseUpdate (ids : List String) (ns : ConnectorNamespace) :
    ConnectorNamespace :=
  if !ns.deleted && ids.contains ns.id then
    { ns with statusPhase := ConnectorNamespacePhaseDeleting }
  else ns

/-- The connector desired state chosen for cascading deletion: "deleted" by
default, "unassigned" when unassigned connectors are enabled (i.e. cascade
delete is disabled).  A function of the global configuration only. -/
def connectorDesiredState (cfg : ConnectorsConfig) : String :=
  if cfg.ConnectorEnableUnassignedConnectors then ConnectorUnassigned
  else ConnectorDeleted

/-- The Updates call that writes DesiredState on the selected connectors
("deleted_at IS NULL AND id IN ?"). -/
def connectorStateUpdate (st : String) (ids : List String) (c : Connector) :
    Connector :=
  if !c.deleted && ids.contains c.id then { c with desiredState := st } else c

/-- The Updates call that sets ConnectorStatus.Phase to "deleting" on the
selected connector ids. -/
def statusPhaseUpdate (ids : List String) (s : ConnectorStatus) :
    ConnectorStatus :=
  if !s.deleted && ids.contains s.id then
    { s with phase := ConnectorStatusPhaseDeleting }
  else s

/-- The Updates call that sets ConnectorDeploymentStatus.Phase to "deleting"
on the selected connector ids. -/
def depStatusPhaseUpdate (ids : List String) (d : ConnectorDeploymentStatus) :
    ConnectorDeploymentStatus :=
  if !d.deleted && ids.contains d.id then
    { d with phase := ConnectorStatusPhaseDeleting }
  else d

/-- Result of DeleteNamespaceAndConnectorDeployments: the mutated store, the
two returned Booleans, and the cluster ids captured by the post-commit
notification closure (empty when no action was registered). -/
structure DeleteNamespaceResult where
  db : DB
  namespaceDeleted : Bool
  connectorsDeleted : Bool
  postCommitClusterIds : List String
deriving DecidableEq, Repr

/-- connectorNamespaceService.DeleteNamespaceAndConnectorDeployments:
select matched namespaces (id, cluster_id); if none, (false, false); set their
phase to "deleting"; select non-deleted connectors in them whose desired state
is not "deleted"; if none, (true, false); otherwise write the configured
desired state on those connectors, set their statuses and deployment statuses
to "deleting", register one post-commit notification per distinct cluster, and
return (true, true).  The caller's query is a predicate, and store-engine
failures are not modelled (every branch that can error in Go errors only when
the engine does). -/
def DeleteNamespaceAndConnectorDeployments (cfg : ConnectorsConfig) (db : DB)
    (p : ConnectorNamespace → Bool) : DeleteNamespaceResult :=
  let namespaces := matchedNamespaces db p
  if namespaces.isEmpty then
    { db := db, namespaceDeleted := false, connectorsDeleted := false,
      postCommitClusterIds := [] }
  else
    let namespaceIds := namespaces.map (fun ns => ns.id)
    let db1 : DB :=
      { db with namespaces := db.namespaces.map (nsPhaseUpdate namespaceIds) }
    let connectorIds := cascadeConnectorIds db p
    if connectorIds.isEmpty then
      { db := db1, namespaceDeleted := true, connectorsDeleted := false,
        postCommitClusterIds := [] }
    else
      let st := connectorDesiredState cfg
      { db :=
          { db1 with
            connectors := db1.connectors.map (connectorStateUpdate st connectorIds),
            connectorStatuses :=
              db1.connectorStatuses.map (statusPhaseUpdate connectorIds),
            deploymentStatuses :=
              db1.deploymentStatuses.map (depStatusPhaseUpdate connectorIds) },
        namespaceDeleted := true, connectorsDeleted := true,
        postCommitClusterIds := touchedClusterIds db p }

/-- The topic written by the post-commit closure for one cluster id. -/
def notifyTopic (cid : String) : String :=
  "/kafka_connector_clusters/" ++ cid ++ "/deployments"

/-- Modelled from the spec: the post-commit hook mechanism
(pkg/db.AddPostCommitAction is outside the sources).  Per the spec the storage
collaborator guarantees "a scheduled callback runs once and only after
commit"; so on commit the mutated store becomes visible and every registered
notification fires once, and on rollback the original store stands and
nothing fires. -/
def runPostCommit (committed : Bool) (orig : DB) (r : DeleteNamespaceResult) :
    DB × List String :=
  if committed then (r.db, r.postCommitClusterIds.map notifyTopic)
  else (orig, [])

/-! ## Get -/

/-- connectorNamespaceService.Get: First on connector_namespaces by primary
key with Annotations (and tenant relations) preloaded; a store-engine error,
including record-not-found, is wrapped in errors.GeneralError ("failed to get
connector namespace").  The returned record carries its annotation rows in the
eager-loaded collection. -/
def Get (db : DB) (namespaceID : String) :
    Except ServiceError ConnectorNamespace :=
  match db.namespaces.find? (fun ns => !ns.deleted && ns.id == namespaceID) with
  | none => .error .general
  | some ns =>
      .ok { ns with
            annotations :=
              db.annotations.filter (fun a => a.namespaceId == ns.id) }

/-! ## GetExpiredNamespaceIds -/

/-- A Bool test for "expiration < now" with SQL NULL semantics: a null
expiration compares false. -/
def expiredBefore (now : Nat) (expiration : Option Nat) : Bool :=
  match expiration with
  | none => false
  | some e => decide (e < now)

/-- The ids selected by GetExpiredNamespaceIds: namespaces (gorm model query,
soft-deleted rows excluded) whose expiration is strictly before now. -/
def expiredNamespaceIds (db : DB) (now : Nat) : List String :=
  (db.namespaces.filter (fun ns =>
      !ns.deleted && expiredBefore now ns.expiration)).map (fun ns => ns.id)

/-- The bulk Update of GetExpiredNamespaceIds: set status_phase to "deleting"
on the selected ids (gorm model update, soft-deleted rows excluded). -/
def expireUpdate (ids : List String) (ns : ConnectorNamespace) :
    ConnectorNamespace :=
  if !ns.deleted && ids.contains ns.id then
    { ns with statusPhase := ConnectorNamespacePhaseDeleting }
  else ns

/-- connectorNamespaceService.GetExpiredNamespaceIds: select the ids of
namespaces with expiration < now, then bulk-update their phase to "deleting",
returning the ids and the mutated store. -/
def GetExpiredNamespaceIds (db : DB) (now : Nat) : List String × DB :=
  let result := expiredNamespaceIds db now
  (result,
    { db with namespaces := db.namespaces.map (expireUpdate result) })

/-! ## ReconcileDeletingNamespaces -/

/-- The live connector-status rows referencing a namespace id: the LEFT JOIN
arm of the reconciliation query (join condition includes
connector_statuses.deleted_at IS NULL). -/
def liveStatusesFor (db : DB) (nsId : String) : List ConnectorStatus :=
  db.connectorStatuses.filter (fun s => !s.deleted && s.namespaceId == nsId)

/-- The ids selected by the reconciliation query: namespaces in phase
"deleting", not soft-deleted, with zero live connector-status rows
(count(namespace_id) = 0 over the left join). -/
def reconcileCandidateIds (db : DB) : List String :=
  (db.namespaces.filter (fun ns =>
      !ns.deleted && ns.statusPhase == ConnectorStatusPhaseDeleting &&
        (liveStatusesFor db ns.id).isEmpty)).map (fun ns => ns.id)

/-- The Delete call of the reconciliation sweep: gorm soft delete of the
selected ids (model scope: already-soft-deleted rows are untouched). -/
def reconcileDelete (ids : List String) (ns : ConnectorNamespace) :
    ConnectorNamespace :=
  if !ns.deleted && ids.contains ns.id then { ns with deleted := true } else ns

/-- connectorNamespaceService.ReconcileDeletingNamespaces: inside one
transaction, select the ids of empty deleting-phase namespaces and soft-delete
them, returning the count of selected ids and the mutated store. -/
def ReconcileDeletingNamespaces (db : DB) : Nat × DB :=
  let ids := reconcileCandidateIds db
  (ids.length,
    { db with namespaces := db.namespaces.map (reconcileDelete ids) })

/-! ## CheckConnectorQuota -/

/-- The annotation read of CheckConnectorQuota: First on
connector_namespace_annotations where namespace_id and key match, selecting
the value. -/
def profileAnnotationValue (db : DB) (namespaceId : String) : Option String :=
  (db.annotations.find? (fun a =>
      a.namespaceId == namespaceId && a.key == AnnotationProfileKey)).map
    (fun a => a.value)

/-- The connector count of CheckConnectorQuota: a gorm model Count over
connectors in the namespace (soft-deleted rows excluded by the scope). -/
def namespaceConnectorCount (db : DB) (namespaceId : String) : Nat :=
  (db.connectors.filter (fun c =>
      !c.deleted && c.namespaceId == namespaceId)).length

/-- connectorNamespaceService.CheckConnectorQuota: read the quota-profile
annotation (a read failure, including a missing annotation row, is wrapped in
errors.FailedToCheckQuota); resolve it with GetNamespaceQuota, discarding the
found flag; when the resolved cap is positive, count the namespace's
connectors and fail with InsufficientQuotaError when count >= cap; otherwise
succeed. -/
def CheckConnectorQuota (qc : ConnectorsQuotaConfig) (db : DB)
    (namespaceId : String) : Option ServiceError :=
  match profileAnnotationValue db namespaceId with
  | none => some .failedToCheckQuota
  | some profileName =>
      let quota := (GetNamespaceQuota qc profileName).fst
      if 0 < quota.Connectors then
        if quota.Connectors ≤ (namespaceConnectorCount db namespaceId : Int) then
          some .insufficientQuota
        else none
      else none

/-! ## CanCreateEvalNamespace -/

/-- The joined rows counted by CanCreateEvalNamespace: connector_namespaces
JOIN connector_clusters ON cluster id, restricted to the user's live
namespaces with non-null expiration on live clusters of whitelisted
evaluation organisations. -/
def evalJoinRows (cfg : ConnectorsConfig) (db : DB) (userId : String) :
    List (ConnectorNamespace × ConnectorCluster) :=
  (db.namespaces.flatMap (fun ns => db.clusters.map (fun cl => (ns, cl)))).filter
    (fun pr =>
      pr.fst.tenantUserId == some userId && pr.fst.expiration.isSome &&
        !pr.fst.deleted && !pr.snd.deleted &&
        pr.snd.id == pr.fst.clusterId &&
        cfg.ConnectorEvalOrganizations.contains pr.snd.organisationId)

/-- connectorNamespaceService.CanCreateEvalNamespace: count the user's live
non-null-expiration namespaces joined to live whitelisted-organisation
clusters; fail with InsufficientQuotaError when the count is positive,
otherwise succeed. -/
def CanCreateEvalNamespace (cfg : ConnectorsConfig) (db : DB)
    (userId : String) : Option ServiceError :=
  let count := (evalJoinRows cfg db userId).length
  if 0 < count then some .insufficientQuota else none

/-! ## SetEvalClusterId -/

/-- The raw SQL of SetEvalClusterId: ids of non-deleted clusters whose
organisation is in the configured whitelist of evaluation organisations. -/
def evalClusters (cfg : ConnectorsConfig) (db : DB) : List String :=
  (db.clusters.filter (fun cl =>
      !cl.deleted &&
        cfg.ConnectorEvalOrganizations.contains cl.organisationId)).map
    (fun cl => cl.id)

/-- The annotation loop of SetEvalClusterId: scan the request's annotations
for the quota-profile key; overwrite the first match's value in place and
stop; if no match, append a new row carrying the namespace id. -/
def setProfileAnn (nsId : String) (profile : String) :
    List NamespaceAnnotationRow → List NamespaceAnnotationRow
  | [] => [{ namespaceId := nsId, key := AnnotationProfileKey, value := profile }]
  | a :: rest =>
      if a.key == AnnotationProfileKey then { a with value := profile } :: rest
      else a :: setProfileAnn nsId profile rest

/-- connectorNamespaceService.SetEvalClusterId: query the eval clusters; fail
with UnauthorizedError when none exist; with exactly one, take it, otherwise
pick one at random (the random draw is the oracle parameter r, reduced modulo
the pool size exactly as rand.Intn does for an arbitrary draw); set the
request's expiration to now plus the configured eval duration; set the
quota-profile annotation to the configured eval profile. -/
def SetEvalClusterId (cfg : ConnectorsConfig) (qc : ConnectorsQuotaConfig)
    (db : DB) (now r : Nat) (request : ConnectorNamespace) :
    Except ServiceError ConnectorNamespace :=
  let availableClusters := evalClusters cfg db
  let numOrgClusters := availableClusters.length
  if numOrgClusters = 0 then .error .unauthorized
  else
    let clusterId :=
      if numOrgClusters = 1 then availableClusters.getD 0 ""
      else availableClusters.getD (r % numOrgClusters) ""
    .ok { request with
          clusterId := clusterId,
          expiration := some (now + cfg.ConnectorEvalDuration),
          annotations :=
            setProfileAnn request.id qc.EvalNamespaceQuotaProfile
              request.annotations }

/-- Primary-key invariant of the connector_namespaces table, stated on the
live rows: no two live namespace rows share an id. -/
def liveNamespaceIdsNodup (db : DB) : Prop :=
  ((db.namespaces.filter (fun ns => !ns.deleted)).map
      (fun ns => ns.id)).Nodup

instance (db : DB) : Decidable (liveNamespaceIdsNodup db) := by
  unfold liveNamespaceIdsNodup
  infer_instance

/-! ## Concrete sample data (used by the witness theorems) -/

/-- A live namespace on cluster cl1 owned by user u1, expiring at time 50. -/
def ns1 : ConnectorNamespace :=
  { id := "ns1", clusterId := "cl1", tenantUserId := some "u1",
    tenantOrganisationId := none, expiration := some 50,
    statusPhase := "ready", version := 1, annotations := [], deleted := false }

/-- A live organisation-tenant namespace on cluster cl2, no expiration. -/
def ns2 : ConnectorNamespace :=
  { id := "ns2", clusterId := "cl2", tenantUserId := none,
    tenantOrganisationId := some "org2", expiration := none,
    statusPhase := "ready", version := 1, annotations := [], deleted := false }

/-- A live connector in ns1 that is not being deleted. -/
def conn1 : Connector :=
  { id := "c1", namespaceId := "ns1", desiredState := "assigned", deleted := false }

/-- A live connector in ns1 already marked for deletion. -/
def conn2 : Connector :=
  { id := "c2", namespaceId := "ns1", desiredState := "deleted", deleted := false }

/-- A live cluster belonging to a whitelisted evaluation organisation. -/
def cl1 : ConnectorCluster :=
  { id := "cl1", organisationId := "org-eval", statusPhase := "ready", deleted := false }

/-- A live cluster belonging to a non-whitelisted organisation. -/
def cl2 : ConnectorCluster :=
  { id := "cl2", organisationId := "org-other", statusPhase := "ready", deleted := false }

/-- The status row of conn1. -/
def st1 : ConnectorStatus :=
  { id := "c1", namespaceId := "ns1", phase := "ready", deleted := false }

/-- The deployment-status row of conn1's deployment. -/
def dst1 : ConnectorDeploymentStatus :=
  { id := "c1", phase := "ready", deleted := false }

/-- The quota-profile annotation row of ns1. -/
def annRow1 : NamespaceAnnotationRow :=
  { namespaceId := "ns1", key := AnnotationProfileKey, value := "default-profile" }

/-- A small store exercising every table. -/
def db1 : DB :=
  { namespaces := [ns1, ns2], clusters := [cl1, cl2],
    connectors := [conn1, conn2], connectorStatuses := [st1],
    deploymentStatuses := [dst1], annotations := [annRow1] }

/-- A sample configuration: eval duration 100, whitelist {org-eval}, cascade
delete enabled (unassigned connectors disabled). -/
def cfg1 : ConnectorsConfig :=
  { ConnectorEvalDuration := 100, ConnectorEvalOrganizations := ["org-eval"],
    ConnectorEnableUnassignedConnectors := false }

/-- A sample quota configuration with one known profile capped at 4. -/
def qc1 : ConnectorsQuotaConfig :=
  { EvalNamespaceQuotaProfile := "evaluation-profile",
    NamespaceQuotas := [("default-profile", { Connectors := 4 })] }

/-- A concrete namespace predicate: matches the namespace with id ns1. -/
def pNs1 : ConnectorNamespace → Bool := fun ns => ns.id == "ns1"

/-- A deleting-phase namespace with no connector-status rows. -/
def ns4 : ConnectorNamespace :=
  { id := "ns4", clusterId := "cl1", tenantUserId := some "u4",
    tenantOrganisationId := none, expiration := none,
    statusPhase := "deleting", version := 1, annotations := [], deleted := false }

/-- A deleting-phase namespace that still has a live connector-status row. -/
def ns5 : ConnectorNamespace :=
  { id := "ns5", clusterId := "cl1", tenantUserId := some "u5",
    tenantOrganisationId := none, expiration := none,
    statusPhase := "deleting", version := 1, annotations := [], deleted := false }

/-- A live connector-status row referencing ns5. -/
def st5 : ConnectorStatus :=
  { id := "c5", namespaceId := "ns5", phase := "ready", deleted := false }

/-- A store for the reconciliation sweep: ns4 is empty, ns5 is not. -/
def db2 : DB :=
  { namespaces := [ns4, ns5], clusters := [], connectors := [],
    connectorStatuses := [st5], deploymentStatuses := [], annotations := [] }

/-- An annotation row naming a profile unknown to the resolver. -/
def annRowMystery : NamespaceAnnotationRow :=
  { namespaceId := "ns1", key := AnnotationProfileKey, value := "mystery" }

/-- A third connector in ns1, used to exceed any small cap. -/
def conn3 : Connector :=
  { id := "c3", namespaceId := "ns1", desiredState := "assigned", deleted := false }

/-- A store whose only namespace carries an unknown quota profile and holds
three connectors. -/
def db3 : DB :=
  { namespaces := [ns1], clusters := [cl1], connectors := [conn1, conn2, conn3],
    connectorStatuses := [], deploymentStatuses := [],
    annotations := [annRowMystery] }

/-! ## Branch lemmas for DeleteNamespaceAndConnectorDeployments -/

/-- When no live namespace matches the predicate, the cascading delete is a
no-op returning (false, false). -/
theorem dnacd_of_empty (cfg : ConnectorsConfig) (db : DB)
    (p : ConnectorNamespace → Bool) (h : matchedNamespaces db p = []) :
    DeleteNamespaceAndConnectorDeployments cfg db p =
      { db := db, namespaceDeleted := false, connectorsDeleted := false,
        postCommitClusterIds := [] } := by
  unfold DeleteNamespaceAndConnectorDeployments
  simp [h]

/-- When namespaces match but no connector cascades, the phases are updated
and the result is (true, false) with no post-commit action. -/
theorem dnacd_of_noCascade (cfg : ConnectorsConfig) (db : DB)
    (p : ConnectorNamespace → Bool) (h : matchedNamespaces db p ≠ [])
    (hc : cascadeConnectorIds db p = []) :
    DeleteNamespaceAndConnectorDeployments cfg db p =
      { db := { db with
            namespaces :=
              db.namespaces.map (nsPhaseUpdate (matchedNamespaceIds db p)) },
        namespaceDeleted := true, connectorsDeleted := false,
        postCommitClusterIds := [] } := by
  unfold DeleteNamespaceAndConnectorDeployments
  simp [List.isEmpty_iff, h, hc, matchedNamespaceIds]

/-- When namespaces match and at least one connector cascades, all four
tables are updated, the result is (true, true), and the post-commit action
captures the distinct touched cluster ids. -/
theorem dnacd_of_cascade (cfg : ConnectorsConfig) (db : DB)
    (p : ConnectorNamespace → Bool) (h : matchedNamespaces db p ≠ [])
    (hc : cascadeConnectorIds db p ≠ []) :
    DeleteNamespaceAndConnectorDeployments cfg db p =
      { db := { db with
            namespaces :=
              db.namespaces.map (nsPhaseUpdate (matchedNamespaceIds db p)),
            connectors :=
              db.connectors.map
                (connectorStateUpdate (connectorDesiredState cfg)
                  (cascadeConnectorIds db p)),
            connectorStatuses :=
              db.connectorStatuses.map
                (statusPhaseUpdate (cascadeConnectorIds db p)),
            deploymentStatuses :=
              db.deploymentStatuses.map
                (depStatusPhaseUpdate (cascadeConnectorIds db p)) },
        namespaceDeleted := true, connectorsDeleted := true,
        postCommitClusterIds := touchedClusterIds db p } := by
  unfold DeleteNamespaceAndConnectorDeployments
  simp [List.isEmpty_iff, h, hc, matchedNamespaceIds]

/-- The second returned Boolean is true exactly when some namespace matched
and some connector cascaded. -/
theorem dnacd_connectorsDeleted_iff (cfg : ConnectorsConfig) (db : DB)
    (p : ConnectorNamespace → Bool) :
    (DeleteNamespaceAndConnectorDeployments cfg db p).connectorsDeleted = true ↔
      matchedNamespaces db p ≠ [] ∧ cascadeConnectorIds db p ≠ [] := by
  by_cases h : matchedNamespaces db p = []
  · simp [dnacd_of_empty cfg db p h, h]
  · by_cases hc : cascadeConnectorIds db p = []
    · simp [dnacd_of_noCascade cfg db p h hc, h, hc]
    · simp [dnacd_of_cascade cfg db p h hc, h, hc]

/-- No connector cascades exactly when every live connector in a matched
namespace already has desired state "deleted". -/
theorem cascadeConnectorIds_eq_nil_iff (db : DB)
    (p : ConnectorNamespace → Bool) :
    cascadeConnectorIds db p = [] ↔
      ∀ c ∈ db.connectors, c.deleted = false →
        c.namespaceId ∈ matchedNamespaceIds db p →
          c.desiredState = ConnectorDeleted := by
  unfold cascadeConnectorIds
  rw [List.map_eq_nil_iff, List.filter_eq_nil_iff]
  constructor
  · intro h c hmem hdel hns
    have hcnt := h c hmem
    simp [hdel, List.elem_eq_mem, hns] at hcnt
    exact hcnt
  · intro h c hmem
    by_cases hdel : c.deleted = false
    · by_cases hns : c.namespaceId ∈ matchedNamespaceIds db p
      · simp [hdel, List.elem_eq_mem, hns, h c hmem hdel hns]
      · simp [hdel, List.elem_eq_mem, hns]
    · simp at hdel
      simp [hdel]

/-- C1: for every predicate, DeleteNamespaceAndConnectorDeployments returns
(false, false, nil) with the store untouched when no namespace matches; when
at least one matches it returns namespaceDeleted = true, every matched
namespace's phase is set to "deleting" (some row with its id now carries phase
"deleting"), and connectorsDeleted is false exactly when no live connector in
the matched namespaces has a desired state other than "deleted", true
otherwise. -/
theorem C1_cascading_delete_returns (cfg : ConnectorsConfig) (db : DB)
    (p : ConnectorNamespace → Bool) :
    (matchedNamespaces db p = [] →
      DeleteNamespaceAndConnectorDeployments cfg db p =
        { db := db, namespaceDeleted := false, connectorsDeleted := false,
          postCommitClusterIds := [] }) ∧
    (matchedNamespaces db p ≠ [] →
      (DeleteNamespaceAndConnectorDeployments cfg db p).namespaceDeleted = true ∧
      (∀ ns ∈ matchedNamespaces db p,
        ∃ ns' ∈ (DeleteNamespaceAndConnectorDeployments cfg db p).db.namespaces,
          ns'.id = ns.id ∧ ns'.statusPhase = ConnectorNamespacePhaseDeleting) ∧
      ((DeleteNamespaceAndConnectorDeployments cfg db p).connectorsDeleted = false ↔
        ∀ c ∈ db.connectors, c.deleted = false →
          c.namespaceId ∈ matchedNamespaceIds db p →
            c.desiredState = ConnectorDeleted)) := by
  constructor
  · intro h
    exact dnacd_of_empty cfg db p h
  · intro h
    have hns : (DeleteNamespaceAndConnectorDeployments cfg db p).db.namespaces =
        db.namespaces.map (nsPhaseUpdate (matchedNamespaceIds db p)) := by
      by_cases hc : cascadeConnectorIds db p = []
      · rw [dnacd_of_noCascade cfg db p h hc]
      · rw [dnacd_of_cascade cfg db p h hc]
    have hnd : (DeleteNamespaceAndConnectorDeployments cfg db p).namespaceDeleted = true := by
      by_cases hc : cascadeConnectorIds db p = []
      · rw [dnacd_of_noCascade cfg db p h hc]
      · rw [dnacd_of_cascade cfg db p h hc]
    refine ⟨hnd, ?_, ?_⟩
    · intro ns hmem
      have hmem' := hmem
      rw [matchedNamespaces, List.mem_filter] at hmem'
      obtain ⟨hin, hpred⟩ := hmem'
      have hdel : ns.deleted = false := by
        rcases Bool.and_eq_true .. |>.mp hpred with ⟨h1, _⟩
        simpa using h1
      refine ⟨nsPhaseUpdate (matchedNamespaceIds db p) ns, ?_, ?_⟩
      · rw [hns]
        exact List.mem_map_of_mem _ hin
      · have hid : ns.id ∈ matchedNamespaceIds db p :=
          List.mem_map_of_mem _ hmem
        rw [nsPhaseUpdate]
        simp [hdel, List.elem_eq_mem, hid]
    · have hcd : (DeleteNamespaceAndConnectorDeployments cfg db p).connectorsDeleted = false ↔
          cascadeConnectorIds db p = [] := by
        by_cases hc : cascadeConnectorIds db p = []
        · simp [dnacd_of_noCascade cfg db p h hc, hc]
        · simp [dnacd_of_cascade cfg db p h hc, hc]
      rw [hcd]
      exact cascadeConnectorIds_eq_nil_iff db p

/-- C1 witness: on the sample store, the predicate matching ns1 finds a
namespace, and the call reports namespaceDeleted = true with the connector
cascade triggered. -/
theorem C1_cascading_delete_returns_witness :
    matchedNamespaces db1 pNs1 ≠ [] ∧
    (DeleteNamespaceAndConnectorDeployments cfg1 db1 pNs1).namespaceDeleted = true :=
  ⟨by decide, ((C1_cascading_delete_returns cfg1 db1 pNs1).2 (by decide)).1⟩

/-- C2: when the cascading deletion finds at least one connector whose desired
state is not "deleted" (connectorsDeleted = true), every such live connector
in a matched namespace ends with desired state "deleted" by default, or
"unassigned" exactly when the global unassigned-connectors switch (the
cascade-delete-disable policy) is configured — a value depending on the
configuration only — and every live status row and deployment-status row of a
cascaded connector ends with phase "deleting". -/
theorem C2_cascade_connector_states (cfg : ConnectorsConfig) (db : DB)
    (p : ConnectorNamespace → Bool)
    (hcd : (DeleteNamespaceAndConnectorDeployments cfg db p).connectorsDeleted = true) :
    (∀ c ∈ db.connectors, c.deleted = false →
      c.namespaceId ∈ matchedNamespaceIds db p →
        c.desiredState ≠ ConnectorDeleted →
        ∃ c' ∈ (DeleteNamespaceAndConnectorDeployments cfg db p).db.connectors,
          c'.id = c.id ∧
          c'.desiredState =
            (if cfg.ConnectorEnableUnassignedConnectors then ConnectorUnassigned
             else ConnectorDeleted)) ∧
    (∀ s ∈ db.connectorStatuses, s.deleted = false →
      s.id ∈ cascadeConnectorIds db p →
        ∃ s' ∈ (DeleteNamespaceAndConnectorDeployments cfg db p).db.connectorStatuses,
          s'.id = s.id ∧ s'.phase = ConnectorStatusPhaseDeleting) ∧
    (∀ d ∈ db.deploymentStatuses, d.deleted = false →
      d.id ∈ cascadeConnectorIds db p →
        ∃ d' ∈ (DeleteNamespaceAndConnectorDeployments cfg db p).db.deploymentStatuses,
          d'.id = d.id ∧ d'.phase = ConnectorStatusPhaseDeleting) := by
  obtain ⟨h, hc⟩ := (dnacd_connectorsDeleted_iff cfg db p).mp hcd
  rw [dnacd_of_cascade cfg db p h hc]
  refine ⟨?_, ?_, ?_⟩
  · intro c hmem hdel hns hstate
    have hid : c.id ∈ cascadeConnectorIds db p := by
      rw [cascadeConnectorIds]
      refine List.mem_map_of_mem _ (List.mem_filter.mpr ⟨hmem, ?_⟩)
      simp [hdel, List.elem_eq_mem, hns, hstate]
    refine ⟨connectorStateUpdate (connectorDesiredState cfg)
        (cascadeConnectorIds db p) c, List.mem_map_of_mem _ hmem, ?_⟩
    rw [connectorStateUpdate]
    simp [hdel, List.elem_eq_mem, hid, connectorDesiredState]
  · intro s hmem hdel hid
    refine ⟨statusPhaseUpdate (cascadeConnectorIds db p) s,
        List.mem_map_of_mem _ hmem, ?_⟩
    rw [statusPhaseUpdate]
    simp [hdel, List.elem_eq_mem, hid]
  · intro d hmem hdel hid
    refine ⟨depStatusPhaseUpdate (cascadeConnectorIds db p) d,
        List.mem_map_of_mem _ hmem, ?_⟩
    rw [depStatusPhaseUpdate]
    simp [hdel, List.elem_eq_mem, hid]

/-- C2 witness: on the sample store with cascade delete enabled, the call on
ns1 cascades and the assigned connector conn1 ends with desired state
"deleted". -/
theorem C2_cascade_connector_states_witness :
    (DeleteNamespaceAndConnectorDeployments cfg1 db1 pNs1).connectorsDeleted = true ∧
    ∃ c' ∈ (DeleteNamespaceAndConnectorDeployments cfg1 db1 pNs1).db.connectors,
      c'.id = conn1.id ∧
      c'.desiredState =
        (if cfg1.ConnectorEnableUnassignedConnectors then ConnectorUnassigned
         else ConnectorDeleted) :=
  ⟨by decide,
    (C2_cascade_connector_states cfg1 db1 pNs1 (by decide)).1 conn1 (by decide)
      (by decide) (by decide) (by decide)⟩

/-- C3: when the cascading deletion cascades to at least one connector
(connectorsDeleted = true), the registered post-commit action carries exactly
one entry per distinct cluster owning a matched namespace (the list has no
duplicates and an id is present exactly when some matched namespace lives on
that cluster), and under the modelled post-commit contract the notifications
fire only on commit — one topic per distinct cluster — and never on
rollback. -/
theorem C3_postCommit_cluster_notifications (cfg : ConnectorsConfig) (db : DB)
    (p : ConnectorNamespace → Bool)
    (hcd : (DeleteNamespaceAndConnectorDeployments cfg db p).connectorsDeleted = true) :
    (DeleteNamespaceAndConnectorDeployments cfg db p).postCommitClusterIds.Nodup ∧
    (∀ cid, cid ∈ (DeleteNamespaceAndConnectorDeployments cfg db p).postCommitClusterIds ↔
      ∃ ns ∈ matchedNamespaces db p, ns.clusterId = cid) ∧
    runPostCommit true db (DeleteNamespaceAndConnectorDeployments cfg db p) =
      ((DeleteNamespaceAndConnectorDeployments cfg db p).db,
        (DeleteNamespaceAndConnectorDeployments cfg db p).postCommitClusterIds.map
          notifyTopic) ∧
    runPostCommit false db (DeleteNamespaceAndConnectorDeployments cfg db p) =
      (db, []) := by
  obtain ⟨h, hc⟩ := (dnacd_connectorsDeleted_iff cfg db p).mp hcd
  refine ⟨?_, ?_, by rw [runPostCommit]; simp, by rw [runPostCommit]; simp⟩
  · rw [dnacd_of_cascade cfg db p h hc]
    exact List.nodup_dedup _
  · intro cid
    rw [dnacd_of_cascade cfg db p h hc]
    show cid ∈ touchedClusterIds db p ↔ _
    rw [touchedClusterIds, List.mem_dedup, List.mem_map]

/-- C3 witness: on the sample store, the call on ns1 cascades; the post-commit
action carries exactly the one cluster cl1, fires its topic only on commit,
and fires nothing on rollback. -/
theorem C3_postCommit_cluster_notifications_witness :
    (DeleteNamespaceAndConnectorDeployments cfg1 db1 pNs1).connectorsDeleted = true ∧
    runPostCommit false db1 (DeleteNamespaceAndConnectorDeployments cfg1 db1 pNs1) =
      (db1, []) :=
  ⟨by decide,
    (C3_postCommit_cluster_notifications cfg1 db1 pNs1 (by decide)).2.2.2⟩

/-- C4 counterexample: on the sample store, fetching an absent namespace id
returns GeneralError, not the NotFoundError the claim names. -/
theorem C4_get_counterexample :
    Get db1 "nsX" = Except.error ServiceError.general ∧
    ServiceError.general ≠ ServiceError.notFound := by
  decide

/-- C4 (amended): Get(id) fails with GeneralError — the uncategorized wrapper
"failed to get connector namespace" — when no live record carries the id; for
every existing id it returns a record with that id with its annotation rows
eagerly loaded. -/
theorem C4_get_amended (db : DB) (namespaceID : String) :
    ((∀ ns ∈ db.namespaces, ns.deleted = false → ns.id ≠ namespaceID) →
      Get db namespaceID = Except.error ServiceError.general) ∧
    ((∃ ns ∈ db.namespaces, ns.deleted = false ∧ ns.id = namespaceID) →
      ∃ out, Get db namespaceID = Except.ok out ∧ out.id = namespaceID ∧
        out.annotations =
          db.annotations.filter (fun a => a.namespaceId == namespaceID)) := by
  constructor
  · intro h
    rw [Get]
    have hnone : db.namespaces.find?
        (fun ns => !ns.deleted && ns.id == namespaceID) = none := by
      rw [List.find?_eq_none]
      intro ns hmem
      simp only [Bool.and_eq_true, Bool.not_eq_true', beq_iff_eq]
      rintro ⟨hdel, hid⟩
      exact h ns hmem hdel hid
    rw [hnone]
  · rintro ⟨ns, hmem, hdel, hid⟩
    have hsome : (db.namespaces.find?
        (fun ns => !ns.deleted && ns.id == namespaceID)).isSome = true := by
      rw [List.find?_isSome]
      exact ⟨ns, hmem, by simp [hdel, hid]⟩
    obtain ⟨found, hfound⟩ := Option.isSome_iff_exists.mp hsome
    have hpred := List.find?_some hfound
    simp only [Bool.and_eq_true, Bool.not_eq_true', beq_iff_eq] at hpred
    refine ⟨{ found with
        annotations :=
          db.annotations.filter (fun a => a.namespaceId == found.id) }, ?_, ?_, ?_⟩
    · rw [Get, hfound]
    · exact hpred.2
    · simp [hpred.2]

/-- C4 witness: on the sample store, the absent id nsX yields GeneralError and
the present id ns1 yields the record with its annotation row loaded. -/
theorem C4_get_amended_witness :
    Get db1 "nsX" = Except.error ServiceError.general ∧
    (∃ out, Get db1 "ns1" = Except.ok out ∧ out.id = "ns1" ∧
      out.annotations =
        db1.annotations.filter (fun a => a.namespaceId == "ns1")) :=
  ⟨(C4_get_amended db1 "nsX").1 (by decide),
    (C4_get_amended db1 "ns1").2 ⟨ns1, by decide, by decide, by decide⟩⟩

/-- Under the live-id primary-key invariant, a live namespace whose expiration
is not strictly before now has an id outside the selected expired ids. -/
theorem not_mem_expiredIds_of_not_expired (db : DB) (now : Nat)
    (hnodup : liveNamespaceIdsNodup db) (ns : ConnectorNamespace)
    (hmem : ns ∈ db.namespaces) (hdel : ns.deleted = false)
    (hexp : expiredBefore now ns.expiration = false) :
    ns.id ∉ expiredNamespaceIds db now := by
  intro hin
  rw [expiredNamespaceIds, List.mem_map] at hin
  obtain ⟨ns2, hns2, hid⟩ := hin
  rw [List.mem_filter, Bool.and_eq_true, Bool.not_eq_true'] at hns2
  have hns2mem : ns2 ∈ db.namespaces := hns2.1
  have hns2del : ns2.deleted = false := hns2.2.1
  have hns2exp : expiredBefore now ns2.expiration = true := hns2.2.2
  have hmem1 : ns ∈ db.namespaces.filter (fun x => !x.deleted) :=
    List.mem_filter.mpr ⟨hmem, by simp [hdel]⟩
  have hmem2 : ns2 ∈ db.namespaces.filter (fun x => !x.deleted) :=
    List.mem_filter.mpr ⟨hns2mem, by simp [hns2del]⟩
  have heq : ns2 = ns :=
    List.inj_on_of_nodup_map hnodup hmem2 hmem1 hid
  rw [heq, hexp] at hns2exp
  exact Bool.false_ne_true hns2exp

/-- C5: GetExpiredNamespaceIds returns exactly the ids of live namespaces
whose expiration is strictly before now; the store after the call is the
bulk phase update applied to every row, a row with expiration strictly
before now is rewritten to phase "deleting", and (under the primary-key
invariant on live ids) a live row with null or future expiration neither
appears in the result nor is changed. -/
theorem C5_expired_namespace_eviction (db : DB) (now : Nat)
    (hnodup : liveNamespaceIdsNodup db) :
    (∀ i, i ∈ (GetExpiredNamespaceIds db now).fst ↔
      ∃ ns ∈ db.namespaces, ns.deleted = false ∧ ns.id = i ∧
        ∃ e, ns.expiration = some e ∧ e < now) ∧
    ((GetExpiredNamespaceIds db now).snd.namespaces =
      db.namespaces.map (expireUpdate (expiredNamespaceIds db now))) ∧
    (∀ ns ∈ db.namespaces, ns.deleted = false →
      (∀ e, ns.expiration = some e → e < now →
        expireUpdate (expiredNamespaceIds db now) ns =
          { ns with statusPhase := ConnectorNamespacePhaseDeleting }) ∧
      ((ns.expiration = none ∨ ∃ e, ns.expiration = some e ∧ ¬ e < now) →
        ns.id ∉ (GetExpiredNamespaceIds db now).fst ∧
        expireUpdate (expiredNamespaceIds db now) ns = ns)) := by
  refine ⟨?_, rfl, ?_⟩
  · intro i
    show i ∈ expiredNamespaceIds db now ↔ _
    rw [expiredNamespaceIds, List.mem_map]
    constructor
    · rintro ⟨ns, hns, hid⟩
      rw [List.mem_filter, Bool.and_eq_true, Bool.not_eq_true'] at hns
      refine ⟨ns, hns.1, hns.2.1, hid, ?_⟩
      have hexpB : expiredBefore now ns.expiration = true := hns.2.2
      rcases hexp : ns.expiration with _ | e
      · rw [hexp] at hexpB
        simp [expiredBefore] at hexpB
      · rw [hexp] at hexpB
        simp only [expiredBefore, decide_eq_true_eq] at hexpB
        exact ⟨e, rfl, hexpB⟩
    · rintro ⟨ns, hmem, hdel, hid, e, hexp, hlt⟩
      refine ⟨ns, List.mem_filter.mpr ⟨hmem, ?_⟩, hid⟩
      simp [hdel, expiredBefore, hexp, hlt]
  · intro ns hmem hdel
    constructor
    · intro e hexp hlt
      have hid : ns.id ∈ expiredNamespaceIds db now := by
        rw [expiredNamespaceIds]
        refine List.mem_map_of_mem _ (List.mem_filter.mpr ⟨hmem, ?_⟩)
        simp [hdel, expiredBefore, hexp, hlt]
      rw [expireUpdate]
      simp [hdel, List.elem_eq_mem, hid]
    · intro hfut
      have hexp : expiredBefore now ns.expiration = false := by
        rcases hfut with hnone | ⟨e, hsome, hge⟩
        · rw [hnone]
          rfl
        · rw [hsome]
          simp [expiredBefore, hge]
      have hnot := not_mem_expiredIds_of_not_expired db now hnodup ns hmem hdel hexp
      refine ⟨hnot, ?_⟩
      rw [expireUpdate]
      simp [List.elem_eq_mem, hnot]

/-- C5 witness: on the sample store at time 60, exactly ns1 (expiring at 50)
is selected, and ns2 (null expiration) is neither selected nor changed. -/
theorem C5_expired_namespace_eviction_witness :
    liveNamespaceIdsNodup db1 ∧
    ("ns2" ∉ (GetExpiredNamespaceIds db1 60).fst ∧
      expireUpdate (expiredNamespaceIds db1 60) ns2 = ns2) :=
  ⟨by decide,
    ((C5_expired_namespace_eviction db1 60 (by decide)).2.2 ns2 (by decide)
        (by decide)).2 (Or.inl (by decide))⟩

/-- C6: the reconciliation sweep returns the number of selected namespaces
and soft-deletes exactly the live deleting-phase namespaces with zero live
connector-status rows; a namespace with at least one live connector-status
row is left untouched; and running the sweep again immediately returns
count 0. -/
theorem C6_reconcile_deleting_namespaces (db : DB) :
    ((ReconcileDeletingNamespaces db).fst = (reconcileCandidateIds db).length) ∧
    ((ReconcileDeletingNamespaces db).snd.namespaces =
      db.namespaces.map (reconcileDelete (reconcileCandidateIds db))) ∧
    (∀ ns ∈ db.namespaces, ns.deleted = false →
      ns.statusPhase = ConnectorStatusPhaseDeleting →
      liveStatusesFor db ns.id = [] →
      reconcileDelete (reconcileCandidateIds db) ns = { ns with deleted := true }) ∧
    (∀ ns ∈ db.namespaces, liveStatusesFor db ns.id ≠ [] →
      reconcileDelete (reconcileCandidateIds db) ns = ns) ∧
    ((ReconcileDeletingNamespaces (ReconcileDeletingNamespaces db).snd).fst = 0) := by
  have hnotin : ∀ ns : ConnectorNamespace, liveStatusesFor db ns.id ≠ [] →
      ns.id ∉ reconcileCandidateIds db := by
    intro ns hstat hin
    rw [reconcileCandidateIds, List.mem_map] at hin
    obtain ⟨ns2, hns2, hid⟩ := hin
    rw [List.mem_filter] at hns2
    have hpred := hns2.2
    simp only [Bool.and_eq_true] at hpred
    have hempty : (liveStatusesFor db ns2.id).isEmpty = true := hpred.2
    rw [hid, List.isEmpty_iff] at hempty
    exact hstat hempty
  refine ⟨rfl, rfl, ?_, ?_, ?_⟩
  · intro ns hmem hdel hphase hstat
    have hid : ns.id ∈ reconcileCandidateIds db := by
      rw [reconcileCandidateIds]
      refine List.mem_map_of_mem _ (List.mem_filter.mpr ⟨hmem, ?_⟩)
      simp [hdel, hphase, hstat]
    rw [reconcileDelete]
    simp [hdel, List.elem_eq_mem, hid]
  · intro ns _ hstat
    by_cases hdel : ns.deleted = true
    · rw [reconcileDelete]
      simp [hdel]
    · rw [reconcileDelete]
      simp [List.elem_eq_mem, hnotin ns hstat]
  · have hlive : ∀ x, liveStatusesFor (ReconcileDeletingNamespaces db).snd x =
        liveStatusesFor db x := fun _ => rfl
    have hcand : reconcileCandidateIds (ReconcileDeletingNamespaces db).snd = [] := by
      rw [reconcileCandidateIds, List.map_eq_nil_iff, List.filter_eq_nil_iff]
      intro ns' hmem'
      simp only [Bool.and_eq_true, Bool.not_eq_true', beq_iff_eq, not_and]
      rintro ⟨hdel', hphase'⟩ hempty'
      rw [hlive, List.isEmpty_iff] at hempty'
      have hmem'' : ns' ∈ db.namespaces.map
          (reconcileDelete (reconcileCandidateIds db)) := hmem'
      obtain ⟨ns, hmem, hf⟩ := List.mem_map.mp hmem''
      by_cases hcond : (!ns.deleted &&
          (reconcileCandidateIds db).contains ns.id) = true
      · rw [reconcileDelete, if_pos hcond] at hf
        rw [← hf] at hdel'
        simp at hdel'
      · rw [reconcileDelete, if_neg hcond] at hf
        subst hf
        have hid : ns.id ∈ reconcileCandidateIds db := by
          rw [reconcileCandidateIds]
          refine List.mem_map_of_mem _ (List.mem_filter.mpr ⟨hmem, ?_⟩)
          simp [hdel', hphase', hempty']
        simp [hdel', List.elem_eq_mem, hid] at hcond
    show (reconcileCandidateIds (ReconcileDeletingNamespaces db).snd).length = 0
    rw [hcand]
    rfl

/-- C6 witness: on the sample sweep store, ns4 (empty, deleting) is swept
(count 1 on the first run), ns5 (still holding a live status row) is left
untouched, and the second run returns count 0. -/
theorem C6_reconcile_deleting_namespaces_witness :
    (ReconcileDeletingNamespaces db2).fst = 1 ∧
    reconcileDelete (reconcileCandidateIds db2) ns4 = { ns4 with deleted := true } ∧
    reconcileDelete (reconcileCandidateIds db2) ns5 = ns5 ∧
    (ReconcileDeletingNamespaces (ReconcileDeletingNamespaces db2).snd).fst = 0 :=
  ⟨by decide,
    (C6_reconcile_deleting_namespaces db2).2.2.1 ns4 (by decide) (by decide)
      (by decide) (by decide),
    (C6_reconcile_deleting_namespaces db2).2.2.2.1 ns5 (by decide) (by decide),
    (C6_reconcile_deleting_namespaces db2).2.2.2.2⟩

/-- CheckConnectorQuota, with the annotation read and the resolver call
replaced by their results: the residual cap test of the source. -/
theorem checkConnectorQuota_reduced (qc : ConnectorsQuotaConfig) (db : DB)
    (namespaceId profileName : String) (max : Int)
    (hann : profileAnnotationValue db namespaceId = some profileName)
    (hq : (GetNamespaceQuota qc profileName).fst.Connectors = max) :
    CheckConnectorQuota qc db namespaceId =
      (if 0 < max then
        if max ≤ (namespaceConnectorCount db namespaceId : Int) then
          some ServiceError.insufficientQuota
        else none
      else none) := by
  unfold CheckConnectorQuota
  rw [hann]
  simp only [hq]

/-- C7: with the namespace's quota-profile annotation resolving to a cap max,
CheckConnectorQuota succeeds exactly when the live connector count is strictly
below max, fails with InsufficientQuotaError exactly when the count has
reached max (for a positive cap), and always succeeds when max is zero or
negative. -/
theorem C7_check_connector_quota (qc : ConnectorsQuotaConfig) (db : DB)
    (namespaceId profileName : String) (max : Int)
    (hann : profileAnnotationValue db namespaceId = some profileName)
    (hq : (GetNamespaceQuota qc profileName).fst.Connectors = max) :
    (0 < max →
      (CheckConnectorQuota qc db namespaceId = none ↔
        (namespaceConnectorCount db namespaceId : Int) < max) ∧
      (CheckConnectorQuota qc db namespaceId = some ServiceError.insufficientQuota ↔
        max ≤ (namespaceConnectorCount db namespaceId : Int))) ∧
    (max ≤ 0 → CheckConnectorQuota qc db namespaceId = none) := by
  have hred := checkConnectorQuota_reduced qc db namespaceId profileName max hann hq
  constructor
  · intro hpos
    rw [hred, if_pos hpos]
    by_cases hle : max ≤ (namespaceConnectorCount db namespaceId : Int)
    · rw [if_pos hle]
      constructor
      · constructor
        · intro hcontra
          exact absurd hcontra (by simp)
        · intro hlt
          exact absurd hle (not_le.mpr hlt)
      · simp [hle]
    · rw [if_neg hle]
      constructor
      · simp [lt_of_not_ge hle]
      · simp [hle]
  · intro hnonpos
    rw [hred, if_neg (not_lt.mpr hnonpos)]

/-- C7 witness: on the sample store, ns1 resolves to the cap 4, holds 2 live
connectors, and the quota check succeeds since 2 < 4. -/
theorem C7_check_connector_quota_witness :
    (0 : Int) < 4 ∧
    (CheckConnectorQuota qc1 db1 "ns1" = none ↔
      (namespaceConnectorCount db1 "ns1" : Int) < 4) :=
  ⟨by decide,
    ((C7_check_connector_quota qc1 db1 "ns1" "default-profile" 4 (by decide)
        (by decide)).1 (by decide)).1⟩

/-- The join of CanCreateEvalNamespace is inhabited exactly when the user owns
a live, non-null-expiration namespace on a live whitelisted-organisation
cluster. -/
theorem evalJoinRows_exists_iff (cfg : ConnectorsConfig) (db : DB)
    (userId : String) :
    (∃ row, row ∈ evalJoinRows cfg db userId) ↔
      ∃ ns ∈ db.namespaces, ns.tenantUserId = some userId ∧
        ns.expiration.isSome = true ∧ ns.deleted = false ∧
        ∃ cl ∈ db.clusters, cl.deleted = false ∧ cl.id = ns.clusterId ∧
          cl.organisationId ∈ cfg.ConnectorEvalOrganizations := by
  unfold evalJoinRows
  constructor
  · rintro ⟨⟨ns, cl⟩, hr⟩
    rw [List.mem_filter] at hr
    obtain ⟨hmem, hpred⟩ := hr
    rw [List.mem_flatMap] at hmem
    obtain ⟨ns0, hns0, hpair⟩ := hmem
    rw [List.mem_map] at hpair
    obtain ⟨cl0, hcl0, heq⟩ := hpair
    cases heq
    simp only [Bool.and_eq_true, beq_iff_eq, Bool.not_eq_true',
      List.elem_eq_mem, decide_eq_true_eq] at hpred
    exact ⟨ns, hns0, hpred.1.1.1.1.1, hpred.1.1.1.1.2, hpred.1.1.1.2,
      cl, hcl0, hpred.1.1.2, hpred.1.2, hpred.2⟩
  · rintro ⟨ns, hns, htn, hexp, hdel, cl, hcl, hcldel, hclid, horg⟩
    refine ⟨(ns, cl), List.mem_filter.mpr ⟨?_, ?_⟩⟩
    · rw [List.mem_flatMap]
      exact ⟨ns, hns, List.mem_map_of_mem _ hcl⟩
    · simp [htn, hexp, hdel, hcldel, hclid.symm, List.elem_eq_mem, horg]

/-- C8: CanCreateEvalNamespace(userID) fails with InsufficientQuotaError if
and only if the user owns a live namespace with non-null expiration whose
live cluster belongs to a whitelisted evaluation organisation; in every other
state it succeeds. -/
theorem C8_can_create_eval_namespace (cfg : ConnectorsConfig) (db : DB)
    (userId : String) :
    (CanCreateEvalNamespace cfg db userId = some ServiceError.insufficientQuota ↔
      ∃ ns ∈ db.namespaces, ns.tenantUserId = some userId ∧
        ns.expiration.isSome = true ∧ ns.deleted = false ∧
        ∃ cl ∈ db.clusters, cl.deleted = false ∧ cl.id = ns.clusterId ∧
          cl.organisationId ∈ cfg.ConnectorEvalOrganizations) ∧
    (CanCreateEvalNamespace cfg db userId ≠ some ServiceError.insufficientQuota →
      CanCreateEvalNamespace cfg db userId = none) := by
  have hiff := evalJoinRows_exists_iff cfg db userId
  constructor
  · unfold CanCreateEvalNamespace
    by_cases hpos : 0 < (evalJoinRows cfg db userId).length
    · rw [if_pos hpos]
      exact iff_of_true rfl (hiff.mp (List.length_pos_iff_exists_mem.mp hpos))
    · rw [if_neg hpos]
      refine iff_of_false (by simp) (fun hP => hpos ?_)
      exact List.length_pos_iff_exists_mem.mpr (hiff.mpr hP)
  · intro hne
    unfold CanCreateEvalNamespace at hne ⊢
    by_cases hpos : 0 < (evalJoinRows cfg db userId).length
    · rw [if_pos hpos] at hne
      exact absurd rfl hne
    · rw [if_neg hpos]

/-- C8 witness: on the sample store, u1 already owns the eval namespace ns1 on
the whitelisted cluster cl1, so the check fails; u9 owns nothing and the
check succeeds. -/
theorem C8_can_create_eval_namespace_witness :
    CanCreateEvalNamespace cfg1 db1 "u1" = some ServiceError.insufficientQuota ∧
    CanCreateEvalNamespace cfg1 db1 "u9" = none :=
  ⟨(C8_can_create_eval_namespace cfg1 db1 "u1").1.mpr
      ⟨ns1, by decide, by decide, by decide, by decide,
        cl1, by decide, by decide, by decide, by decide⟩,
    (C8_can_create_eval_namespace cfg1 db1 "u9").2 (by decide)⟩

/-- The annotation loop of SetEvalClusterId, assuming at most one pre-existing
row per key: afterwards exactly one quota-profile row exists and every
quota-profile row carries the new profile value. -/
theorem setProfileAnn_spec (nsId profile : String)
    (l : List NamespaceAnnotationRow)
    (h : (l.filter (fun a => a.key == AnnotationProfileKey)).length ≤ 1) :
    ((setProfileAnn nsId profile l).filter
        (fun a => a.key == AnnotationProfileKey)).length = 1 ∧
    ∀ a ∈ setProfileAnn nsId profile l, a.key = AnnotationProfileKey →
      a.value = profile := by
  induction l with
  | nil =>
      constructor
      · simp [setProfileAnn]
      · intro a ha hk
        simp only [setProfileAnn, List.mem_singleton] at ha
        rw [ha]
  | cons hd tl ih =>
      by_cases hk : (hd.key == AnnotationProfileKey) = true
      · have hkey : hd.key = AnnotationProfileKey := by simpa using hk
        have hfilter : (hd :: tl).filter (fun a => a.key == AnnotationProfileKey) =
            hd :: tl.filter (fun a => a.key == AnnotationProfileKey) :=
          List.filter_cons_of_pos hk
        rw [hfilter] at h
        have htl : tl.filter (fun a => a.key == AnnotationProfileKey) = [] := by
          rw [← List.length_eq_zero]
        -- length (hd :: filtered tl) = filtered tl length + 1 ≤ 1
          have := List.length_cons hd (tl.filter (fun a => a.key == AnnotationProfileKey)) ▸ h
          omega
        constructor
        · rw [setProfileAnn, if_pos hk, List.filter_cons_of_pos (by simpa using hk),
            htl]
          rfl
        · intro a ha hka
          rw [setProfileAnn, if_pos hk] at ha
          rcases List.mem_cons.mp ha with heq | hmem
          · rw [heq]
          · have : a ∈ tl.filter (fun a => a.key == AnnotationProfileKey) :=
              List.mem_filter.mpr ⟨hmem, by simp [hka]⟩
            rw [htl] at this
            exact absurd this (List.not_mem_nil a)
      · have hfilter : (hd :: tl).filter (fun a => a.key == AnnotationProfileKey) =
            tl.filter (fun a => a.key == AnnotationProfileKey) :=
          List.filter_cons_of_neg hk
        rw [hfilter] at h
        obtain ⟨ih1, ih2⟩ := ih h
        constructor
        · rw [setProfileAnn, if_neg hk, List.filter_cons, if_neg hk]
          exact ih1
        · intro a ha hka
          rw [setProfileAnn, if_neg hk] at ha
          rcases List.mem_cons.mp ha with heq | hmem
          · rw [heq] at hka
            exact absurd (by simp [hka]) hk
          · exact ih2 a hmem hka

/-- C9: SetEvalClusterId fails with UnauthorizedError when no live cluster of
a whitelisted evaluation organisation exists; otherwise it succeeds, assigns a
cluster id from that pool (the unique one when the pool has exactly one
member), sets the expiration to now plus the configured evaluation duration,
and — assuming at most one pre-existing annotation per key — leaves exactly
one quota-profile annotation, whose value is the configured evaluation
profile name. -/
theorem C9_set_eval_cluster_id (cfg : ConnectorsConfig)
    (qc : ConnectorsQuotaConfig) (db : DB) (now r : Nat)
    (request : ConnectorNamespace)
    (huniq : (request.annotations.filter
        (fun a => a.key == AnnotationProfileKey)).length ≤ 1) :
    (evalClusters cfg db = [] →
      SetEvalClusterId cfg qc db now r request =
        Except.error ServiceError.unauthorized) ∧
    (evalClusters cfg db ≠ [] →
      ∃ out, SetEvalClusterId cfg qc db now r request = Except.ok out ∧
        out.clusterId ∈ evalClusters cfg db ∧
        (∀ c, evalClusters cfg db = [c] → out.clusterId = c) ∧
        out.expiration = some (now + cfg.ConnectorEvalDuration) ∧
        ((out.annotations.filter
            (fun a => a.key == AnnotationProfileKey)).length = 1 ∧
          ∀ a ∈ out.annotations, a.key = AnnotationProfileKey →
            a.value = qc.EvalNamespaceQuotaProfile)) := by
  constructor
  · intro h
    unfold SetEvalClusterId
    simp [h]
  · intro h
    have hn : ¬ (evalClusters cfg db).length = 0 := by
      rw [List.length_eq_zero]
      exact h
    have hpos : 0 < (evalClusters cfg db).length := Nat.pos_of_ne_zero hn
    unfold SetEvalClusterId
    rw [if_neg hn]
    refine ⟨_, rfl, ?_, ?_, rfl, ?_⟩
    · by_cases h1 : (evalClusters cfg db).length = 1
      · rw [if_pos h1, List.getD_eq_getElem _ _ (by omega)]
        exact List.getElem_mem _
      · rw [if_neg h1,
          List.getD_eq_getElem _ _ (Nat.mod_lt r hpos)]
        exact List.getElem_mem _
    · intro c hc
      rw [hc]
      simp
    · exact setProfileAnn_spec request.id qc.EvalNamespaceQuotaProfile
        request.annotations huniq

/-- C9 witness: on the sample store (one eval cluster, cl1), the call on the
annotation-free request ns2 succeeds, and the returned namespace carries
cluster cl1, expiration 1100 = 1000 + 100, and the single eval-profile
annotation. -/
theorem C9_set_eval_cluster_id_witness :
    evalClusters cfg1 db1 ≠ [] ∧
    ∃ out, SetEvalClusterId cfg1 qc1 db1 1000 7 ns2 = Except.ok out ∧
      out.clusterId ∈ evalClusters cfg1 db1 ∧
      (∀ c, evalClusters cfg1 db1 = [c] → out.clusterId = c) ∧
      out.expiration = some (1000 + cfg1.ConnectorEvalDuration) ∧
      ((out.annotations.filter
          (fun a => a.key == AnnotationProfileKey)).length = 1 ∧
        ∀ a ∈ out.annotations, a.key = AnnotationProfileKey →
          a.value = qc1.EvalNamespaceQuotaProfile) :=
  ⟨by decide,
    (C9_set_eval_cluster_id cfg1 qc1 db1 1000 7 ns2 (by decide)).2 (by decide)⟩

/-- C10: when the quota-profile annotation names a profile unknown to the
resolver, CheckConnectorQuota discards the not-found signal, proceeds with
the zero-valued policy, and succeeds regardless of the store's connector
population. -/
theorem C10_unknown_profile_unlimited (qc : ConnectorsQuotaConfig) (db : DB)
    (namespaceId profileName : String)
    (hann : profileAnnotationValue db namespaceId = some profileName)
    (hunknown : qc.NamespaceQuotas.find? (fun pq => pq.fst == profileName) = none) :
    CheckConnectorQuota qc db namespaceId = none := by
  unfold CheckConnectorQuota
  rw [hann]
  simp [GetNamespaceQuota, hunknown]

/-- C10 witness: on the store whose namespace is annotated with the unknown
profile "mystery" and holds three live connectors, the quota check still
succeeds. -/
theorem C10_unknown_profile_unlimited_witness :
    profileAnnotationValue db3 "ns1" = some "mystery" ∧
    namespaceConnectorCount db3 "ns1" = 3 ∧
    CheckConnectorQuota qc1 db3 "ns1" = none :=
  ⟨by decide, by decide,
    C10_unknown_profile_unlimited qc1 db3 "ns1" "mystery" (by decide) (by decide)⟩

end KasFleet
